import Mathlib

/-!
Shallow embedding of the shop database schema and of its fake-data seeding
utility (`main_app/models/*.py`, `main_app/models/fake_data_gen/fake_data.py`).

Conventions of the embedding:
* surrogate keys and foreign keys are `Nat`;
* `Integer` data columns are `Int`;
* `Numeric(10, 2)` money columns are `Rat`;
* timestamps (`DateTime`) are abstract instants modelled as `Nat`;
* nullable columns are `Option`;
* randomness is an explicit entropy stream `rnd : Nat → Nat`, one draw per
  call into Python's `random`, threaded through an explicit draw index;
* a fallible database write returns `Except Violation DB`; an error means
  the transaction rolled back and the database is unchanged.
-/

namespace ShopDb

/-- User account status (`UserStatus` in `src/main_app/models/user.py`):
active / banned / deleted. -/
inductive UserStatus
| active
| banned
| deleted
deriving DecidableEq, Repr

/-- Modelled from the spec: `OrderStatusENUM` lives in
`fake_data_gen/storage.py`, which is not under `src/`; the spec lists the
order statuses pending / paid / shipping / delivered / completed / canceled,
and `create_fake_orders` enumerates exactly these six members. -/
inductive OrderStatusENUM
| pending
| paid
| shipping
| delivered
| completed
| canceled
deriving DecidableEq, Repr

/-- String value of an order status, as stored in the `orders.status`
column (a `String(50)` column with default "pending"). -/
def statusVal : OrderStatusENUM → String
| .pending => "pending"
| .paid => "paid"
| .shipping => "shipping"
| .delivered => "delivered"
| .completed => "completed"
| .canceled => "canceled"

/-- Row of table `users` (`src/main_app/models/user.py`). -/
structure UserRow where
  id : Nat
  email : String
  phone : Option String
  password_hash : String
  password_algo : Option String
  password_changed_at : Option Nat
  preferred_locale : String
  timezone : String
  default_currency : String
  marketing_opt_in : Bool
  terms_accepted_at : Option Nat
  status : UserStatus
  failed_login_attempts : Int
  lockout_until : Option Nat
  created_at : Nat
  updated_at : Nat
  last_login_at : Option Nat
  gdpr_erasure_requested_at : Option Nat
deriving DecidableEq, Repr

/-- Row of table `categories` (`src/main_app/models/category.py`). -/
structure CategoryRow where
  id : Nat
  parent_id : Option Nat
  name : String
  slug : String
  description : Option String
  is_active : Bool
  created_at : Nat
  updated_at : Nat
deriving DecidableEq, Repr

/-- Row of table `products` (`src/main_app/models/product.py`). -/
structure ProductRow where
  id : Nat
  sku : String
  name : String
  description : Option String
  brand : Option String
  price : Rat
  discount_price : Option Rat
  stock : Int
  is_active : Bool
  slug : String
  meta_title : Option String
  meta_description : Option String
  created_at : Nat
  updated_at : Nat
deriving DecidableEq, Repr

/-- Row of table `products_categories`
(`src/main_app/models/m2m_products_categories.py`): the pure association
table; its only columns are the two foreign keys, which together form the
composite primary key (no synthetic `id` column). -/
structure ProductCategoryRow where
  product_id : Nat
  category_id : Nat
deriving DecidableEq, Repr

/-- Row of table `user_address` (`src/main_app/models/user_address.py`). -/
structure UserAddressRow where
  id : Nat
  user_id : Nat
  line1 : String
  line2 : Option String
  city : String
  state : Option String
  postal_code : String
  country : String
  is_default_shipping : Bool
  is_default_billing : Bool
  created_at : Nat
  updated_at : Nat
deriving DecidableEq, Repr

/-- Row of table `shopping_cart` (`src/main_app/models/shopping_cart.py`). -/
structure ShoppingCartRow where
  id : Nat
  user_id : Nat
  product_id : Nat
  quantity : Int
  added_at : Nat
deriving DecidableEq, Repr

/-- Row of table `wishlists` (`src/main_app/models/wishlist.py`). -/
structure WishlistRow where
  id : Nat
  user_id : Nat
  name : String
  created_at : Nat
  updated_at : Nat
deriving DecidableEq, Repr

/-- Row of table `wishlist_items` (`src/main_app/models/m2m_wishlist_items.py`). -/
structure WishlistItemRow where
  id : Nat
  wishlist_id : Nat
  product_id : Nat
  created_at : Nat
  updated_at : Nat
deriving DecidableEq, Repr

/-- Row of table `orders` (`src/main_app/models/order.py`). -/
structure OrderRow where
  id : Nat
  user_id : Nat
  shipping_address_id : Option Nat
  order_number : String
  status : String
  total_amount : Rat
  is_paid : Bool
  created_at : Nat
  updated_at : Nat
deriving DecidableEq, Repr

/-- Row of table `order_items` (`src/main_app/models/order_items.py`).
`unit_price` is the price at the time of order. -/
structure OrderItemRow where
  id : Nat
  order_id : Nat
  product_id : Nat
  quantity : Int
  unit_price : Rat
  created_at : Nat
  updated_at : Nat
deriving DecidableEq, Repr

/-- Row of table `payments` (`src/main_app/models/payment.py`). -/
structure PaymentRow where
  id : Nat
  order_id : Nat
  user_id : Nat
  payment_method : String
  amount : Rat
  status : String
  transaction_id : Option String
  created_at : Nat
  updated_at : Nat
deriving DecidableEq, Repr

/-- Row of table `reviews` (`src/main_app/models/review.py`).  The source
declares `rating: Mapped[int] = mapped_column(Integer, nullable=False)` with
only the comment `# 1-5`: there is no check constraint on the column. -/
structure ReviewRow where
  id : Nat
  user_id : Nat
  product_id : Nat
  rating : Int
  title : Option String
  content : Option String
  is_approved : Bool
  created_at : Nat
  updated_at : Nat
deriving DecidableEq, Repr

/-- The database: one list of rows per table of the schema. -/
structure DB where
  users : List UserRow
  categories : List CategoryRow
  products : List ProductRow
  productCategories : List ProductCategoryRow
  addresses : List UserAddressRow
  cartItems : List ShoppingCartRow
  wishlists : List WishlistRow
  wishlistItems : List WishlistItemRow
  orders : List OrderRow
  orderItems : List OrderItemRow
  payments : List PaymentRow
  reviews : List ReviewRow
deriving DecidableEq, Repr

/-- Outcome of a rejected write: which declared constraint fired. -/
inductive Violation
| uniqueViolation
| foreignKeyViolation
deriving DecidableEq, Repr

/-- Next value of an autoincrement surrogate key column, given the ids
already present in the table. -/
def nextId (ids : List Nat) : Nat := ids.foldr Nat.max 0 + 1

/-! ### Schema-level write operations

The model classes declare the constraints (unique columns, composite
primary keys, foreign keys, cascading relationships); the functions below
are the storage engine's semantics for a single write under those declared
constraints.  An `Except.error` means the statement was rejected and the
transaction rolled back, so the caller's database is unchanged. -/

/-- Insert a review.  `reviews` declares foreign keys `user_id → users.id`
and `product_id → products.id`, an autoincrement surrogate `id`, and no
other constraint: in particular no check constraint on `rating`. -/
def insertReview (db : DB) (r : ReviewRow) : Except Violation DB :=
  if ¬ db.users.any (fun u => u.id = r.user_id) then .error .foreignKeyViolation
  else if ¬ db.products.any (fun p => p.id = r.product_id) then .error .foreignKeyViolation
  else .ok { db with reviews := db.reviews ++ [{ r with id := nextId (db.reviews.map (fun x => x.id)) }] }

/-- Insert a shopping-cart row.  `shopping_cart` declares foreign keys to
`users` and `products` and the unique constraint
`UniqueConstraint("user_id", "product_id", name="uix_user_product_cart")`. -/
def insertCartRow (db : DB) (c : ShoppingCartRow) : Except Violation DB :=
  if ¬ db.users.any (fun u => u.id = c.user_id) then .error .foreignKeyViolation
  else if ¬ db.products.any (fun p => p.id = c.product_id) then .error .foreignKeyViolation
  else if db.cartItems.any (fun x => x.user_id = c.user_id ∧ x.product_id = c.product_id) then
    .error .uniqueViolation
  else .ok { db with cartItems := db.cartItems ++ [{ c with id := nextId (db.cartItems.map (fun x => x.id)) }] }

/-- Database state seen by the caller after attempting a cart insert: on a
rejected write the transaction rolls back and the state is unchanged. -/
def insertCartRowState (db : DB) (c : ShoppingCartRow) : DB :=
  match insertCartRow db c with
  | .ok db2 => db2
  | .error _ => db

/-- Insert a product.  `products` declares `sku` and `slug` as unique
columns (`unique=True, nullable=False`) and an autoincrement surrogate
`id`; it has no foreign key. -/
def insertProduct (db : DB) (p : ProductRow) : Except Violation DB :=
  if db.products.any (fun q => q.sku = p.sku) then .error .uniqueViolation
  else if db.products.any (fun q => q.slug = p.slug) then .error .uniqueViolation
  else .ok { db with products := db.products ++ [{ p with id := nextId (db.products.map (fun x => x.id)) }] }

/-- Database state seen by the caller after attempting a product insert:
on a rejected write the transaction rolls back and the state is unchanged. -/
def insertProductState (db : DB) (p : ProductRow) : DB :=
  match insertProduct db p with
  | .ok db2 => db2
  | .error _ => db

/-- Insert an association row into `products_categories`.  Its composite
primary key `(product_id, category_id)` rejects a duplicate pair; both
columns are foreign keys. -/
def insertProductCategory (db : DB) (pc : ProductCategoryRow) : Except Violation DB :=
  if ¬ db.products.any (fun p => p.id = pc.product_id) then .error .foreignKeyViolation
  else if ¬ db.categories.any (fun c => c.id = pc.category_id) then .error .foreignKeyViolation
  else if db.productCategories.any (fun x => x.product_id = pc.product_id ∧ x.category_id = pc.category_id) then
    .error .uniqueViolation
  else .ok { db with productCategories := db.productCategories ++ [pc] }

/-- Delete a user together with everything the declared cascades remove.
`User` declares `cascade="all, delete-orphan"` towards orders, reviews,
payments, wishlists, cart items and addresses; `Order` cascades to its
items and payments; `Wishlist` cascades to its items. -/
def deleteUser (db : DB) (uid : Nat) : DB :=
  let deletedOrderIds := (db.orders.filter (fun o => o.user_id = uid)).map (fun o => o.id)
  let deletedWishlistIds := (db.wishlists.filter (fun w => w.user_id = uid)).map (fun w => w.id)
  { db with
    users := db.users.filter (fun u => ¬ u.id = uid)
    orders := db.orders.filter (fun o => ¬ o.user_id = uid)
    orderItems := db.orderItems.filter (fun it => ¬ it.order_id ∈ deletedOrderIds)
    payments := db.payments.filter (fun p => ¬ (p.user_id = uid ∨ p.order_id ∈ deletedOrderIds))
    reviews := db.reviews.filter (fun r => ¬ r.user_id = uid)
    cartItems := db.cartItems.filter (fun c => ¬ c.user_id = uid)
    addresses := db.addresses.filter (fun a => ¬ a.user_id = uid)
    wishlists := db.wishlists.filter (fun w => ¬ w.user_id = uid)
    wishlistItems := db.wishlistItems.filter (fun wi => ¬ wi.wishlist_id ∈ deletedWishlistIds) }

/-! ### The fake-data seeding utility (`fake_data_gen/fake_data.py`)

`FakeData.__init__` fixes `self.limitation = 10000` (a cap on how many
objects a single call may create) and `self.batch_size = 500`.  Calls into
Python's `random` and into `faker` are modelled as reads from an explicit
entropy stream `rnd : Nat → Nat` at an explicit, monotonically advancing
draw index. -/

/-- `self.limitation` in `FakeData.__init__`. -/
def limitation : Nat := 10000

/-- `self.batch_size` in `FakeData.__init__`. -/
def batch_size : Nat := 500

/-- Model of `random.randint(a, b)` (both bounds inclusive): draw number
`k` of the stream, reduced into `[a, b]`.  Meaningful for `a ≤ b`, exactly
as in Python where `randint` raises otherwise. -/
def randint (rnd : Nat → Nat) (k a b : Nat) : Nat := a + rnd k % (b + 1 - a)

/-- Model of `random.choice(l)`: pick the element at a stream-chosen index.
Meaningful for nonempty `l`, exactly as in Python where `choice` raises on
an empty sequence. -/
def random_choice (rnd : Nat → Nat) (k : Nat) (l : List α) (dflt : α) : α :=
  l.getD (rnd k % l.length) dflt

/-- `FakeData.fake_password_hash`: hex digest of sha256 of the password.
The hash itself is `hashlib`, an external library; only its use as an
opaque string matters here, so the digest is modelled as a tagged copy. -/
def fake_password_hash (password : String) : String := "sha256-" ++ password

/-- `FakeData.check_user_exists`: `SELECT` the user by id and test whether
a row came back. -/
def check_user_exists (db : DB) (user_id : Nat) : Bool :=
  db.users.any (fun u => u.id = user_id)

/-- `FakeData.check_product_exists`. -/
def check_product_exists (db : DB) (product_id : Nat) : Bool :=
  db.products.any (fun p => p.id = product_id)

/-- `FakeData.get_min_max_user_id`: `SELECT min(users.id), max(users.id)`,
which is `(NULL, NULL)` on an empty table. -/
def get_min_max_user_id (db : DB) : Option Nat × Option Nat :=
  match db.users.map (fun u => u.id) with
  | [] => (none, none)
  | x :: xs => (some (xs.foldl Nat.min x), some (xs.foldl Nat.max x))

/-- The probe loop of `FakeData.get_random_existing_user_id`:
`for _ in range(10000)`, draw `random.randint(min_id, max_id)` and return
it as soon as `check_user_exists` succeeds; falling off the loop returns
`None`.  Returns the result together with the advanced draw index. -/
def probe_user_id (db : DB) (rnd : Nat → Nat) (lo hi : Nat) : Nat → Nat → Option Nat × Nat
| 0, k => (none, k)
| fuel + 1, k =>
  let random_id := randint rnd k lo hi
  if check_user_exists db random_id then (some random_id, k + 1)
  else probe_user_id db rnd lo hi fuel (k + 1)

/-- `FakeData.get_random_existing_user_id`: `None` when the users table is
empty (`min_id is None or max_id is None`), otherwise up to 10000 random
probes in `[min_id, max_id]`. -/
def get_random_existing_user_id (db : DB) (rnd : Nat → Nat) (k : Nat) : Option Nat × Nat :=
  match get_min_max_user_id db with
  | (some lo, some hi) => probe_user_id db rnd lo hi 10000 k
  | _ => (none, k)

/-- Model of `faker`'s generated strings (`unique.email()`,
`unique.msisdn()`, `password()`, `catch_phrase()`, …): an external
collaborator producing a fresh string per draw; the draw index makes
successive values distinct, which is all the source relies on. -/
def fakerString (tag : String) (k : Nat) : String := tag ++ "-" ++ toString k

/-- One iteration body of `FakeData.create_fake_users`: builds a `User`
from faker values and nine `random` draws, starting at draw index `k`.
The surrogate `id` is left 0: it is assigned by the database on insert. -/
def mk_fake_user (rnd : Nat → Nat) (now : Nat) (k : Nat) : UserRow × Nat :=
  let email := fakerString "email" k
  let phone := (fakerString "msisdn" k).take 12
  let password := fakerString "password" k
  ({
    id := 0
    email := email
    phone := some phone
    password_hash := fake_password_hash password
    password_algo := some "sha256"
    password_changed_at := some (now - randint rnd k 0 365)
    preferred_locale := random_choice rnd (k + 1) ["en", "de", "fr", "ru"] "en"
    timezone := "UTC"
    default_currency := random_choice rnd (k + 2) ["USD", "EUR", "GBP", "JPY"] "USD"
    marketing_opt_in := random_choice rnd (k + 3) [true, false] true
    terms_accepted_at := some (now - randint rnd (k + 4) 1 1000)
    status := random_choice rnd (k + 5) [UserStatus.active, .banned, .deleted] .active
    failed_login_attempts := (randint rnd (k + 6) 0 5 : Nat)
    lockout_until := none
    created_at := now - randint rnd (k + 7) 1 1000
    updated_at := now
    last_login_at := some (now - randint rnd (k + 8) 1 300)
    gdpr_erasure_requested_at := none }, k + 9)

/-- The generation loop of `FakeData.create_fake_users` over the clamped
count, threading the draw index. -/
def create_fake_users_loop (rnd : Nat → Nat) (now : Nat) : Nat → Nat → List UserRow
| 0, _ => []
| n + 1, k =>
  let (user, k2) := mk_fake_user rnd now k
  user :: create_fake_users_loop rnd now n k2

/-- `FakeData.create_fake_users`: clamp `how_many` to `self.limitation`
and build that many fake users. -/
def create_fake_users (rnd : Nat → Nat) (now : Nat) (how_many : Nat) : List UserRow :=
  create_fake_users_loop rnd now (Nat.min how_many limitation) 0

/-- Round to two decimal places, as Python's `round(x, 2)` applied to the
generated prices (`Numeric(10, 2)` columns). -/
def round2 (q : Rat) : Rat := ((q * 100).floor : Rat) / 100

/-- Model of `random.uniform(5, 2000)` rounded to two decimals: an
arbitrary stream-chosen amount of cents in `[500, 200000]`. -/
def fake_uniform_price (r : Nat) : Rat := ((500 + r % 199501 : Nat) : Rat) / 100

/-- A product paired with the `categories=category_list` relationship
argument it was constructed with (association rows are created on flush). -/
structure ProductWithCategories where
  product : ProductRow
  categories : List CategoryRow
deriving DecidableEq, Repr

/-- `choose_categories` inside `FakeData.create_fake_products`: three
`random.choice` draws from the categories read from the database. -/
def choose_categories (rnd : Nat → Nat) (k : Nat) (categories : List CategoryRow) : List CategoryRow :=
  [random_choice rnd k categories default,
   random_choice rnd (k + 1) categories default,
   random_choice rnd (k + 2) categories default]
where
  /-- unreachable `random.choice` default (Python raises on an empty list,
  modelled by the `.error` branch of the product loop) -/
  default : CategoryRow :=
    { id := 0, parent_id := none, name := "", slug := "", description := none,
      is_active := true, created_at := 0, updated_at := 0 }

/-- The generation loop of `FakeData.create_fake_products`.  With a
nonzero count and no category in the database, `random.choice` raises
`IndexError` (the `.error` case); otherwise each product consumes the
category draws, a price draw, a discount decision draw (`random.random()
< 0.3`), a discount factor draw when taken (`random.uniform(0.7, 0.95)`),
and a stock draw (`random.randint(0, 500)`). -/
def create_fake_products_loop (rnd : Nat → Nat) (now : Nat) (categories_from_db : List CategoryRow) :
    Nat → Nat → Except Unit (List ProductWithCategories)
| 0, _ => .ok []
| n + 1, k =>
  if categories_from_db.isEmpty then .error ()
  else
    let category_list := choose_categories rnd k categories_from_db
    let name := fakerString "catch-phrase" k
    let sku := fakerString "sku" k
    let brand := fakerString "company" k
    let price := fake_uniform_price (rnd (k + 3))
    let take_discount := rnd (k + 4) % 10 < 3
    let discount_price : Option Rat :=
      if take_discount then some (round2 (price * (((70 + rnd (k + 5) % 26 : Nat) : Rat) / 100)))
      else none
    let k5 := if take_discount then k + 6 else k + 5
    let stock := randint rnd k5 0 500
    let slug := fakerString "slug" k
    let description := fakerString "paragraph" k
    let product : ProductRow :=
      { id := 0
        sku := sku
        name := name
        description := some description
        brand := some brand
        price := price
        discount_price := discount_price
        stock := (stock : Int)
        is_active := true
        slug := slug
        meta_title := some name
        meta_description := some (description.take 100)
        created_at := now
        updated_at := now }
    match create_fake_products_loop rnd now categories_from_db n (k5 + 1) with
    | .ok ps => .ok ({ product := product, categories := category_list } :: ps)
    | .error e => .error e

/-- `FakeData.create_fake_products`: clamp `how_many` to the limitation,
read the categories from the database, and build the products. -/
def create_fake_products (db : DB) (rnd : Nat → Nat) (now : Nat) (how_many : Nat) :
    Except Unit (List ProductWithCategories) :=
  create_fake_products_loop rnd now db.categories (Nat.min how_many limitation) 0

/-- Modelled from the spec: `DataLists` (street, city, state, country
pools) lives in `fake_data_gen/storage.py`, which is not under `src/`;
only its role as nonempty pools for `random.choice` matters. -/
structure DataLists where
  streets : List String
  cities : List String
  states : List String
  countries : List String
deriving DecidableEq, Repr

/-- One `UserAddress(...)` construction inside
`FakeData.create_fake_addresses`, threading the draw index through the
conditional sub-draws exactly as Python evaluates them (condition first,
chosen branch second).  The surrogate `id` is assigned by the database. -/
def mk_fake_address (rnd : Nat → Nat) (k : Nat) (random_user_id : Nat) (dl : DataLists) :
    UserAddressRow × Nat :=
  let street := random_choice rnd k dl.streets ""
  let house := randint rnd (k + 1) 1 144
  let letter_cond := randint rnd (k + 2) 1 4 = 3
  let letter := if letter_cond then random_choice rnd (k + 3) ["A", "B", "C", "D", "E", "F", "G"] "" else ""
  let k1 := if letter_cond then k + 4 else k + 3
  let line2_cond := randint rnd k1 0 1 = 0
  let line2 := if line2_cond then some (toString (randint rnd (k1 + 1) 1 88)) else none
  let k2 := if line2_cond then k1 + 2 else k1 + 1
  ({
    id := 0
    user_id := random_user_id
    line1 := street ++ " " ++ toString house ++ letter
    line2 := line2
    city := random_choice rnd k2 dl.cities ""
    state := some (random_choice rnd (k2 + 1) dl.states "")
    postal_code := toString (randint rnd (k2 + 2) 100000 10000000)
    country := random_choice rnd (k2 + 3) dl.countries ""
    is_default_shipping := randint rnd (k2 + 4) 0 1 = 1
    is_default_billing := randint rnd (k2 + 5) 0 1 = 1
    created_at := 0
    updated_at := 0 }, k2 + 6)

/-- Outcome of one `create_fake_addresses` run: the committed rows, and
what the caller sees — `.error ()` when a `session.commit()` raised and
the exception propagated, `.ok v` when the function returned, `v` being
its return value.  The Python function body has no `return` statement, so
the returned value is always `None`, modelled as `Option Nat` to compare
against a hypothetical row-count report. -/
structure AddrRun where
  addresses : List UserAddressRow
  ret : Except Unit (Option Nat)
deriving Repr

/-- The row count a caller of `create_fake_addresses` receives, if any. -/
def reported_rows (r : AddrRun) : Option Nat :=
  match r.ret with
  | .ok v => v
  | .error _ => none

/-- The batched loop of `FakeData.create_fake_addresses`.  State: rows
visible in the database (initial rows plus committed batches), the pending
batch, the draw index, and the number of commits attempted so far; the
oracle `cf` tells which `session.commit()` calls fail.  A failing commit
raises, the exception propagates (there is no try/except), and the pending
batch is rolled back. -/
def create_fake_addresses_loop (db : DB) (rnd : Nat → Nat) (cf : Nat → Bool) (dl : DataLists) :
    Nat → List UserAddressRow → List UserAddressRow → Nat → Nat → AddrRun
| 0, visible, batch, _, c =>
  -- after the loop: `if batch: session.add_all(batch)` and a final commit
  if cf c then { addresses := visible, ret := .error () }
  else { addresses := visible ++ batch, ret := .ok none }
| n + 1, visible, batch, k, c =>
  match get_random_existing_user_id db rnd k with
  | (none, k1) => create_fake_addresses_loop db rnd cf dl n visible batch k1 c
  | (some random_user_id, k1) =>
    let address_in_db := visible.any (fun a => a.user_id = random_user_id)
    let exists_in_batch := batch.any (fun a => a.user_id = random_user_id)
    if address_in_db || exists_in_batch then
      create_fake_addresses_loop db rnd cf dl n visible batch k1 c
    else
      let (user_address, k2) := mk_fake_address rnd k1 random_user_id dl
      let batch2 := batch ++ [user_address]
      if batch_size ≤ batch2.length then
        if cf c then { addresses := visible, ret := .error () }
        else create_fake_addresses_loop db rnd cf dl n (visible ++ batch2) [] k2 (c + 1)
      else create_fake_addresses_loop db rnd cf dl n visible batch2 k2 c

/-- `FakeData.create_fake_addresses`: clamp `how_many` to the limitation
and run the batched loop on one session. -/
def create_fake_addresses (db : DB) (rnd : Nat → Nat) (cf : Nat → Bool) (dl : DataLists)
    (how_many : Nat) : AddrRun :=
  create_fake_addresses_loop db rnd cf dl (Nat.min how_many limitation) db.addresses [] 0 0

/-- Unreachable `scalar_one` default for product lookups: the looked-up id
is always drawn from `db.products.map (fun p => p.id)`. -/
def default_product : ProductRow :=
  { id := 0, sku := "", name := "", description := none, brand := none, price := 0,
    discount_price := none, stock := 0, is_active := true, slug := "",
    meta_title := none, meta_description := none, created_at := 0, updated_at := 0 }

/-- Unreachable `addresses[0]` default: only taken from a nonempty list. -/
def default_address : UserAddressRow :=
  { id := 0, user_id := 0, line1 := "", line2 := none, city := "", state := none,
    postal_code := "", country := "", is_default_shipping := false,
    is_default_billing := false, created_at := 0, updated_at := 0 }

/-- `is_paid=(order_status_gen != OrderStatusENUM.PENDING.value)` in
`create_fake_orders`.  The right-hand side is `PENDING`'s underlying
value; `OrderStatusENUM` is defined in `storage.py`, absent from `src/`,
so the comparison is modelled from the spec's evident intent: paid unless
the generated status is pending. -/
def is_paid_of : OrderStatusENUM → Bool
| .pending => false
| _ => true

/-- An `Order(...)` together with the `items=order_items` relationship
argument it was constructed with (foreign keys are filled in on flush). -/
structure OrderWithItems where
  order : OrderRow
  items : List OrderItemRow
deriving DecidableEq, Repr

/-- The inner item loop of `create_fake_orders`: for each item pick a
random product id from the ids read from the database, `SELECT` that
product (`scalar_one`), and snapshot `unit_price=current_product.price`
with a random quantity in `[1, 100]`. -/
def order_items_loop (db : DB) (rnd : Nat → Nat) (now : Nat) (product_ids : List Nat) :
    Nat → Nat → List OrderItemRow × Nat
| 0, k => ([], k)
| n + 1, k =>
  let product_id := random_choice rnd k product_ids 0
  let current_product := (db.products.find? (fun p => p.id = product_id)).getD default_product
  let item : OrderItemRow :=
    { id := 0
      order_id := 0
      product_id := product_id
      quantity := (randint rnd (k + 1) 1 100 : Int)
      unit_price := current_product.price
      created_at := now
      updated_at := now }
  let (rest, k2) := order_items_loop db rnd now product_ids n (k + 2)
  (item :: rest, k2)

/-- One iteration of the `for _ in range(how_many)` loop of
`create_fake_orders`: pick a random existing user (`continue` on `None`),
load the user with their addresses (`continue` when they have none), draw
a status and an order-number suffix, read the product ids (`continue` when
there are no products), generate `random.randint(1, max_items_in_order)`
line items, and build the order with
`total_amount=sum(item.unit_price * item.quantity for item in order_items)`
and `shipping_address_id=current_user.addresses[0].id`. -/
def order_iteration (db : DB) (rnd : Nat → Nat) (now : Nat) (today : String)
    (max_items : Nat) (k : Nat) : Option OrderWithItems × Nat :=
  match get_random_existing_user_id db rnd k with
  | (none, k1) => (none, k1)
  | (some random_user_id, k1) =>
    let user_addresses := db.addresses.filter (fun a => a.user_id = random_user_id)
    if user_addresses.isEmpty then (none, k1)
    else
      let order_status_gen := random_choice rnd k1
        [OrderStatusENUM.pending, .paid, .shipping, .delivered, .completed, .canceled] .pending
      let order_number :=
        today ++ "-" ++ toString random_user_id ++ "-" ++ toString (randint rnd (k1 + 1) 100000 999999)
      let product_ids := db.products.map (fun p => p.id)
      if product_ids.isEmpty then (none, k1 + 2)
      else
        let num_items := randint rnd (k1 + 2) 1 max_items
        let (order_items, k2) := order_items_loop db rnd now product_ids num_items (k1 + 3)
        let order : OrderRow :=
          { id := 0
            user_id := random_user_id
            shipping_address_id := some (user_addresses.headD default_address).id
            order_number := order_number
            status := statusVal order_status_gen
            total_amount := order_items.foldl (fun acc item => acc + item.unit_price * (item.quantity : Rat)) 0
            is_paid := is_paid_of order_status_gen
            created_at := now
            updated_at := now }
        (some { order := order, items := order_items }, k2)

/-- The outer loop of `create_fake_orders` over the clamped count; the
orders collected here are exactly the ones `session.add`ed and committed. -/
def create_fake_orders_loop (db : DB) (rnd : Nat → Nat) (now : Nat) (today : String)
    (max_items : Nat) : Nat → Nat → List OrderWithItems
| 0, _ => []
| n + 1, k =>
  match order_iteration db rnd now today max_items k with
  | (none, k1) => create_fake_orders_loop db rnd now today max_items n k1
  | (some ow, k1) => ow :: create_fake_orders_loop db rnd now today max_items n k1

/-- `FakeData.create_fake_orders`: clamp both `how_many` and
`max_items_in_order` to the limitation and run the loop; `today` is the
`%Y%m%d` date used in the order number. -/
def create_fake_orders (db : DB) (rnd : Nat → Nat) (now : Nat) (today : String)
    (how_many max_items_in_order : Nat) : List OrderWithItems :=
  create_fake_orders_loop db rnd now today (Nat.min max_items_in_order limitation)
    (Nat.min how_many limitation) 0

/-! ### Schema description: tables, columns and primary keys -/

/-- The twelve entity types declared under `src/main_app/models/`. -/
inductive Entity
| user
| category
| product
| productCategory
| userAddress
| shoppingCart
| wishlist
| wishlistItem
| order
| orderItem
| payment
| review
deriving DecidableEq, Repr

/-- `__tablename__` of each entity. -/
def table_name : Entity → String
| .user => "users"
| .category => "categories"
| .product => "products"
| .productCategory => "products_categories"
| .userAddress => "user_address"
| .shoppingCart => "shopping_cart"
| .wishlist => "wishlists"
| .wishlistItem => "wishlist_items"
| .order => "orders"
| .orderItem => "order_items"
| .payment => "payments"
| .review => "reviews"

/-- The mapped columns of each entity, transcribed from the model files in
declaration order.  `products_categories` has only its two foreign keys
("id is not needed and just takes space on disc"). -/
def table_columns : Entity → List String
| .user => ["id", "email", "phone", "password_hash", "password_algo", "password_changed_at",
    "preferred_locale", "timezone", "default_currency", "marketing_opt_in", "terms_accepted_at",
    "status", "failed_login_attempts", "lockout_until", "created_at", "updated_at",
    "last_login_at", "gdpr_erasure_requested_at"]
| .category => ["id", "parent_id", "name", "slug", "description", "is_active", "created_at", "updated_at"]
| .product => ["id", "sku", "name", "description", "brand", "price", "discount_price", "stock",
    "is_active", "slug", "meta_title", "meta_description", "created_at", "updated_at"]
| .productCategory => ["product_id", "category_id"]
| .userAddress => ["id", "user_id", "line1", "line2", "city", "state", "postal_code", "country",
    "is_default_shipping", "is_default_billing", "created_at", "updated_at"]
| .shoppingCart => ["id", "user_id", "product_id", "quantity", "added_at"]
| .wishlist => ["id", "user_id", "name", "created_at", "updated_at"]
| .wishlistItem => ["id", "wishlist_id", "product_id", "created_at", "updated_at"]
| .order => ["id", "user_id", "shipping_address_id", "order_number", "status", "total_amount",
    "is_paid", "created_at", "updated_at"]
| .orderItem => ["id", "order_id", "product_id", "quantity", "unit_price", "created_at", "updated_at"]
| .payment => ["id", "order_id", "user_id", "payment_method", "amount", "status", "transaction_id",
    "created_at", "updated_at"]
| .review => ["id", "user_id", "product_id", "rating", "title", "content", "is_approved",
    "created_at", "updated_at"]

/-- Primary-key columns of each entity: every model declares
`id: Mapped[int] = mapped_column(primary_key=True, autoincrement=True)`,
except `ProductCategory`, whose two foreign-key columns are both declared
`primary_key=True`. -/
def primary_key_columns : Entity → List String
| .productCategory => ["product_id", "category_id"]
| _ => ["id"]

/-- Whether the entity's primary key is a single autoincrement surrogate
column (true for all entities except the association table). -/
def pk_autoincrement : Entity → Bool
| .productCategory => false
| _ => true

/-! ### Concrete rows and databases used to instantiate the theorems -/

/-- The empty database. -/
def emptyDB : DB :=
  { users := [], categories := [], products := [], productCategories := [],
    addresses := [], cartItems := [], wishlists := [], wishlistItems := [],
    orders := [], orderItems := [], payments := [], reviews := [] }

/-- A minimal concrete user row with the given id. -/
def exUser (i : Nat) : UserRow :=
  { id := i, email := "u" ++ toString i ++ "@x.com", phone := none,
    password_hash := "h", password_algo := some "sha256", password_changed_at := none,
    preferred_locale := "en", timezone := "UTC", default_currency := "USD",
    marketing_opt_in := false, terms_accepted_at := none, status := .active,
    failed_login_attempts := 0, lockout_until := none, created_at := 0,
    updated_at := 0, last_login_at := none, gdpr_erasure_requested_at := none }

/-- A minimal concrete product row. -/
def exProduct (i : Nat) (sku slug : String) (price : Rat) : ProductRow :=
  { id := i, sku := sku, name := "p" ++ toString i, description := none, brand := none,
    price := price, discount_price := none, stock := 10, is_active := true,
    slug := slug, meta_title := none, meta_description := none,
    created_at := 0, updated_at := 0 }

/-- A minimal concrete address row. -/
def exAddress (i uid : Nat) : UserAddressRow :=
  { id := i, user_id := uid, line1 := "High Street 1", line2 := none, city := "Berlin",
    state := none, postal_code := "100000", country := "DE",
    is_default_shipping := false, is_default_billing := false,
    created_at := 0, updated_at := 0 }

/-- A minimal concrete category row. -/
def exCategory (i : Nat) (slug : String) : CategoryRow :=
  { id := i, parent_id := none, name := "c" ++ toString i, slug := slug,
    description := none, is_active := true, created_at := 0, updated_at := 0 }

/-- A minimal concrete wishlist row. -/
def exWishlist (i uid : Nat) : WishlistRow :=
  { id := i, user_id := uid, name := "w" ++ toString i, created_at := 0, updated_at := 0 }

/-- A minimal concrete wishlist item row. -/
def exWishlistItem (i wid pid : Nat) : WishlistItemRow :=
  { id := i, wishlist_id := wid, product_id := pid, created_at := 0, updated_at := 0 }

/-- A minimal concrete cart row. -/
def exCart (i uid pid : Nat) (qty : Int) : ShoppingCartRow :=
  { id := i, user_id := uid, product_id := pid, quantity := qty, added_at := 0 }

/-- A minimal concrete review row. -/
def exReview (i uid pid : Nat) (rating : Int) : ReviewRow :=
  { id := i, user_id := uid, product_id := pid, rating := rating, title := none,
    content := none, is_approved := false, created_at := 0, updated_at := 0 }

/-- A minimal concrete order row. -/
def exOrder (i uid : Nat) (number : String) : OrderRow :=
  { id := i, user_id := uid, shipping_address_id := none, order_number := number,
    status := "pending", total_amount := 0, is_paid := false,
    created_at := 0, updated_at := 0 }

/-- A minimal concrete payment row. -/
def exPayment (i oid uid : Nat) : PaymentRow :=
  { id := i, order_id := oid, user_id := uid, payment_method := "card", amount := 1,
    status := "pending", transaction_id := none, created_at := 0, updated_at := 0 }

/-- Concrete data pools standing in for `DataLists`. -/
def exDataLists : DataLists :=
  { streets := ["High Street"], cities := ["Berlin"], states := ["BE"], countries := ["DE"] }

/-- A seeded database with one user who has one address, and one product:
the smallest state on which `create_fake_orders` produces an order. -/
def seedDb : DB :=
  { emptyDB with
    users := [exUser 1]
    addresses := [exAddress 1 1]
    products := [exProduct 1 "SKU-001" "p-1" 10] }

/-- Fallback order used only to destructure concrete run results. -/
def owDefault : OrderWithItems := { order := exOrder 0 0 "", items := [] }

/-- The (unique) order generated by `create_fake_orders` on `seedDb` with
the all-zero entropy stream. -/
def seedOw : OrderWithItems :=
  (create_fake_orders seedDb (fun _ => 0) 0 "20260101" 1 1).headD owDefault

/-- `seedDb` with one existing cart row for (user 1, product 1). -/
def cartDb : DB := { seedDb with cartItems := [exCart 1 1 1 2] }

/-- Two users and their wishlists, with one wishlist item each: user 1's
data must vanish when user 1 is deleted, user 2's must survive. -/
def twoUserDb : DB :=
  { emptyDB with
    users := [exUser 1, exUser 2]
    wishlists := [exWishlist 10 1, exWishlist 20 2]
    wishlistItems := [exWishlistItem 1 10 1, exWishlistItem 2 20 1] }

/-- A catalog state with one product and one category and no association
rows yet. -/
def catalogDb : DB :=
  { emptyDB with
    products := [exProduct 1 "SKU-001" "p-1" 10]
    categories := [exCategory 1 "cat-1"] }

/-- `catalogDb` after associating product 1 with category 1. -/
def catalogDb2 : DB :=
  { catalogDb with productCategories := [{ product_id := 1, category_id := 1 }] }

/-- A database with a single user and no addresses: seeding addresses on
it inserts exactly one row per run of `how_many = 1`. -/
def oneUserDb : DB := { emptyDB with users := [exUser 1] }

/-- A database with one category, enough for `create_fake_products`. -/
def oneCategoryDb : DB := { emptyDB with categories := [exCategory 1 "cat-1"] }

/-- The products generated on `oneCategoryDb` by a concrete successful run. -/
def seedPs : List ProductWithCategories :=
  match create_fake_products oneCategoryDb (fun _ => 0) 0 2 with
  | .ok ps => ps
  | .error _ => []

/-- Users with ids 1 and 3 only: the probe range `[1, 3]` contains the
gap 2, which a constant entropy stream hits on every draw. -/
def gapDb : DB := { emptyDB with users := [exUser 1, exUser 3] }

/-- At most one shopping-cart row per `(user_id, product_id)` pair. -/
def cart_pairs_unique (l : List ShoppingCartRow) : Prop :=
  l.Pairwise (fun a b => ¬ (a.user_id = b.user_id ∧ a.product_id = b.product_id))

/-- Pairwise distinct `sku` values. -/
def skus_distinct (l : List ProductRow) : Prop :=
  l.Pairwise (fun a b => a.sku ≠ b.sku)

/-- Pairwise distinct `slug` values. -/
def slugs_distinct (l : List ProductRow) : Prop :=
  l.Pairwise (fun a b => a.slug ≠ b.slug)

/-- At most one association row per `(product_id, category_id)` pair. -/
def pc_pairs_unique (l : List ProductCategoryRow) : Prop :=
  l.Pairwise (fun a b => ¬ (a.product_id = b.product_id ∧ a.category_id = b.category_id))

/-! ### Helper lemmas -/

/-- A successful probe returns an id that `check_user_exists` accepted. -/
theorem probe_some_exists {db : DB} {rnd : Nat → Nat} {lo hi : Nat} :
    ∀ {fuel k r k1}, probe_user_id db rnd lo hi fuel k = (some r, k1) →
      ∃ u ∈ db.users, u.id = r := by
  intro fuel
  induction fuel with
  | zero => intro k r k1 h; simp [probe_user_id] at h
  | succ n ih =>
    intro k r k1 h
    by_cases hc : check_user_exists db (randint rnd k lo hi)
    · simp only [probe_user_id, hc, if_pos] at h
      obtain ⟨hr, -⟩ := Prod.mk.injEq .. ▸ h
      obtain ⟨hr2⟩ := hr
      simpa [check_user_exists, List.any_eq_true] using hc
    · simp only [probe_user_id, hc, if_neg] at h
      exact ih h

/-- A probe that always misses exhausts its fuel and returns `none`. -/
theorem probe_all_miss {db : DB} {rnd : Nat → Nat} {lo hi : Nat}
    (hmiss : ∀ j, check_user_exists db (randint rnd j lo hi) = false) :
    ∀ fuel k, probe_user_id db rnd lo hi fuel k = (none, k + fuel) := by
  intro fuel
  induction fuel with
  | zero => intro k; simp [probe_user_id]
  | succ n ih =>
    intro k
    simp only [probe_user_id, hmiss k, Bool.false_eq_true, if_false, ih (k + 1)]
    congr 1
    omega

/-- A `some` result of `get_random_existing_user_id` is the id of a user
present in the database. -/
theorem get_random_some_exists {db : DB} {rnd : Nat → Nat} {k r k1 : Nat}
    (h : get_random_existing_user_id db rnd k = (some r, k1)) :
    ∃ u ∈ db.users, u.id = r := by
  unfold get_random_existing_user_id at h
  split at h
  · exact probe_some_exists h
  · simp at h

/-- `random.choice` on a nonempty list returns an element of the list. -/
theorem random_choice_mem {rnd : Nat → Nat} {k : Nat} {l : List α} {d : α}
    (h : l ≠ []) : random_choice rnd k l d ∈ l := by
  have hlen : 0 < l.length := List.length_pos.mpr h
  have hidx : rnd k % l.length < l.length := Nat.mod_lt _ hlen
  unfold random_choice
  rw [List.getD_eq_getElem l d hidx]
  exact List.getElem_mem ..

/-- `headD` of a nonempty list is an element of the list. -/
theorem headD_mem {l : List α} {d : α} (h : l ≠ []) : l.headD d ∈ l := by
  cases l with
  | nil => exact absurd rfl h
  | cons x xs => simp [List.headD]

/-- Python's `sum(item.unit_price * item.quantity for item in order_items)`
is the sum of `quantity * unit_price` over the items. -/
theorem foldl_total :
    ∀ (l : List OrderItemRow) (init : Rat),
      l.foldl (fun acc item => acc + item.unit_price * (item.quantity : Rat)) init
        = init + (l.map (fun it => (it.quantity : Rat) * it.unit_price)).sum := by
  intro l
  induction l with
  | nil => intro init; simp
  | cons x xs ih =>
    intro init
    simp only [List.foldl_cons, List.map_cons, List.sum_cons, ih]
    ring

/-- The item loop creates exactly as many items as requested. -/
theorem order_items_loop_length (db : DB) (rnd : Nat → Nat) (now : Nat)
    (product_ids : List Nat) :
    ∀ n k, (order_items_loop db rnd now product_ids n k).fst.length = n := by
  intro n
  induction n with
  | zero => intro k; simp [order_items_loop]
  | succ m ih =>
    intro k
    simp [order_items_loop, ih (k + 2)]

/-- Every item the item loop creates references a product of the
database, and snapshots that product's current price as `unit_price`. -/
theorem order_items_loop_price (db : DB) (rnd : Nat → Nat) (now : Nat)
    (hne : db.products.map (fun p => p.id) ≠ []) :
    ∀ n k it, it ∈ (order_items_loop db rnd now (db.products.map (fun p => p.id)) n k).fst →
      ∃ p ∈ db.products, p.id = it.product_id ∧ it.unit_price = p.price := by
  intro n
  induction n with
  | zero => intro k it hit; simp [order_items_loop] at hit
  | succ m ih =>
    intro k it hit
    simp only [order_items_loop, List.mem_cons] at hit
    rcases hit with hhead | htail
    · subst hhead
      have hpid : random_choice rnd k (db.products.map (fun p => p.id)) 0
          ∈ db.products.map (fun p => p.id) := random_choice_mem hne
      rw [List.mem_map] at hpid
      obtain ⟨q, hq, hqid⟩ := hpid
      have hsome : (db.products.find? (fun p => p.id = random_choice rnd k (db.products.map (fun p => p.id)) 0)).isSome := by
        rw [List.find?_isSome]
        exact ⟨q, hq, by simp [hqid]⟩
      obtain ⟨p0, hp0⟩ := Option.isSome_iff_exists.mp hsome
      refine ⟨p0, List.mem_of_find?_eq_some hp0, ?_, ?_⟩
      · have := List.find?_some hp0
        simpa using this
      · simp [hp0]
    · exact ih (k + 2) it htail

/-- Specification of one successful iteration of the order loop: the
produced order belongs to an existing user, ships to an address of that
same user, has exactly the requested number (at least one) of items, every
item snapshots an existing product's price, and `total_amount` is the sum
of `unit_price * quantity` over the items. -/
theorem order_iteration_spec {db : DB} {rnd : Nat → Nat} {now : Nat} {today : String}
    {max_items k : Nat} {ow : OrderWithItems} {k1 : Nat}
    (h : order_iteration db rnd now today max_items k = (some ow, k1)) :
    (∃ u ∈ db.users, u.id = ow.order.user_id)
    ∧ (∃ a ∈ db.addresses, a.user_id = ow.order.user_id ∧ ow.order.shipping_address_id = some a.id)
    ∧ ow.items ≠ []
    ∧ ow.order.total_amount = (ow.items.map (fun it => (it.quantity : Rat) * it.unit_price)).sum
    ∧ ∀ it ∈ ow.items, ∃ p ∈ db.products, p.id = it.product_id ∧ it.unit_price = p.price := by
  unfold order_iteration at h
  cases hg : get_random_existing_user_id db rnd k with
  | mk ouid kk =>
  rw [hg] at h
  cases ouid with
  | none => simp at h
  | some random_user_id =>
  simp only at h
  by_cases haddr : (db.addresses.filter (fun a => a.user_id = random_user_id)).isEmpty
  · rw [if_pos haddr] at h; simp at h
  · rw [if_neg haddr] at h
    by_cases hprod : (db.products.map (fun p => p.id)).isEmpty
    · rw [if_pos hprod] at h; simp at h
    · rw [if_neg hprod] at h
      have hne : db.products.map (fun p => p.id) ≠ [] := by
        simpa [List.isEmpty_iff] using hprod
      have hane : db.addresses.filter (fun a => a.user_id = random_user_id) ≠ [] := by
        simpa [List.isEmpty_iff] using haddr
      obtain ⟨how, -⟩ := Prod.mk.injEq .. ▸ h
      obtain ⟨rfl⟩ := how.symm
      constructor
      · exact get_random_some_exists (hg.trans (by rfl))
      constructor
      · refine ⟨(db.addresses.filter (fun a => a.user_id = random_user_id)).headD default_address,
          List.mem_of_mem_filter (headD_mem hane), ?_, rfl⟩
        have := List.of_mem_filter (headD_mem hane (d := default_address))
        simpa using this
      constructor
      · intro hnil
        have hlen := order_items_loop_length db rnd now (db.products.map (fun p => p.id))
          (randint rnd (kk + 2) 1 max_items) (kk + 3)
        dsimp only at hnil
        rw [hnil] at hlen
        simp only [randint, List.length_nil] at hlen
        omega
      constructor
      · dsimp only
        rw [foldl_total, zero_add]
      · intro it hit
        dsimp only at hit
        exact order_items_loop_price db rnd now hne _ _ it hit

/-- Every order the outer loop collects was produced by some successful
iteration. -/
theorem create_fake_orders_loop_mem {db : DB} {rnd : Nat → Nat} {now : Nat} {today : String}
    {max_items : Nat} :
    ∀ {n k ow}, ow ∈ create_fake_orders_loop db rnd now today max_items n k →
      ∃ k0 k1, order_iteration db rnd now today max_items k0 = (some ow, k1) := by
  intro n
  induction n with
  | zero => intro k ow h; simp [create_fake_orders_loop] at h
  | succ m ih =>
    intro k ow h
    unfold create_fake_orders_loop at h
    cases hit : order_iteration db rnd now today max_items k with
    | mk oow kk =>
    rw [hit] at h
    cases oow with
    | none => exact ih h
    | some ow0 =>
      rcases List.mem_cons.mp h with rfl | htail
      · exact ⟨k, kk, hit⟩
      · exact ih htail

/-- The outer order loop collects at most one order per iteration. -/
theorem create_fake_orders_loop_length (db : DB) (rnd : Nat → Nat) (now : Nat) (today : String)
    (max_items : Nat) :
    ∀ n k, (create_fake_orders_loop db rnd now today max_items n k).length ≤ n := by
  intro n
  induction n with
  | zero => intro k; simp [create_fake_orders_loop]
  | succ m ih =>
    intro k
    unfold create_fake_orders_loop
    cases hit : order_iteration db rnd now today max_items k with
    | mk oow kk =>
    cases oow with
    | none => exact Nat.le_succ_of_le (ih kk)
    | some ow0 => simpa using Nat.succ_le_succ (ih kk)

/-- The user loop creates exactly as many users as requested. -/
theorem create_fake_users_loop_length (rnd : Nat → Nat) (now : Nat) :
    ∀ n k, (create_fake_users_loop rnd now n k).length = n := by
  intro n
  induction n with
  | zero => intro k; simp [create_fake_users_loop]
  | succ m ih =>
    intro k
    simp [create_fake_users_loop, ih]

/-- When the product loop succeeds it creates exactly as many products as
requested. -/
theorem create_fake_products_loop_length (rnd : Nat → Nat) (now : Nat)
    (categories_from_db : List CategoryRow) :
    ∀ {n k ps}, create_fake_products_loop rnd now categories_from_db n k = .ok ps →
      ps.length = n := by
  intro n
  induction n with
  | zero => intro k ps h; simp only [create_fake_products_loop] at h; cases h; rfl
  | succ m ih =>
    intro k ps h
    unfold create_fake_products_loop at h
    by_cases hemp : categories_from_db.isEmpty
    · rw [if_pos hemp] at h; cases h
    · rw [if_neg hemp] at h
      dsimp only at h
      rcases hrec2 : create_fake_products_loop rnd now categories_from_db m
          ((if rnd (k + 4) % 10 < 3 then k + 6 else k + 5) + 1) with ps0 | e
      all_goals rw [hrec2] at h
      · cases h
      · cases h
        simp [ih hrec2]

/-- The committed rows after the address loop grow by at most one row per
remaining iteration. -/
theorem create_fake_addresses_loop_length (db : DB) (rnd : Nat → Nat) (cf : Nat → Bool)
    (dl : DataLists) :
    ∀ n visible batch k c,
      (create_fake_addresses_loop db rnd cf dl n visible batch k c).addresses.length
        ≤ visible.length + batch.length + n := by
  intro n
  induction n with
  | zero =>
    intro visible batch k c
    unfold create_fake_addresses_loop
    by_cases hcf : cf c
    · simp [hcf]
    · simp [hcf]
  | succ m ih =>
    intro visible batch k c
    unfold create_fake_addresses_loop
    cases hg : get_random_existing_user_id db rnd k with
    | mk ouid k1 =>
    cases ouid with
    | none =>
      calc (create_fake_addresses_loop db rnd cf dl m visible batch k1 c).addresses.length
          ≤ visible.length + batch.length + m := ih ..
        _ ≤ visible.length + batch.length + (m + 1) := by omega
    | some uid =>
      dsimp only
      by_cases hdup : (visible.any (fun a => a.user_id = uid) || batch.any (fun a => a.user_id = uid))
      · rw [if_pos hdup]
        calc (create_fake_addresses_loop db rnd cf dl m visible batch k1 c).addresses.length
            ≤ visible.length + batch.length + m := ih ..
          _ ≤ visible.length + batch.length + (m + 1) := by omega
      · rw [if_neg hdup]
        by_cases hfull : batch_size ≤ (batch ++ [(mk_fake_address rnd k1 uid dl).fst]).length
        · rw [if_pos hfull]
          by_cases hcf : cf c
          · simp only [if_pos hcf]
            omega
          · simp only [hcf, Bool.false_eq_true, if_false]
            calc (create_fake_addresses_loop db rnd cf dl m
                    (visible ++ (batch ++ [(mk_fake_address rnd k1 uid dl).fst])) [] _ (c + 1)).addresses.length
                ≤ (visible ++ (batch ++ [(mk_fake_address rnd k1 uid dl).fst])).length + [].length + m := ih ..
              _ ≤ visible.length + batch.length + (m + 1) := by
                  simp [List.length_append]
                  omega
        · rw [if_neg hfull]
          calc (create_fake_addresses_loop db rnd cf dl m visible
                  (batch ++ [(mk_fake_address rnd k1 uid dl).fst]) _ c).addresses.length
              ≤ visible.length + (batch ++ [(mk_fake_address rnd k1 uid dl).fst]).length + m := ih ..
            _ ≤ visible.length + batch.length + (m + 1) := by
                simp [List.length_append]
                omega

/-- Whatever happens, the address loop either raises a commit error or
returns Python's `None`: there is no exit that reports a row count. -/
theorem create_fake_addresses_loop_ret (db : DB) (rnd : Nat → Nat) (cf : Nat → Bool)
    (dl : DataLists) :
    ∀ n visible batch k c,
      (create_fake_addresses_loop db rnd cf dl n visible batch k c).ret = .ok none
      ∨ (create_fake_addresses_loop db rnd cf dl n visible batch k c).ret = .error () := by
  intro n
  induction n with
  | zero =>
    intro visible batch k c
    unfold create_fake_addresses_loop
    by_cases hcf : cf c
    · simp [hcf]
    · simp [hcf]
  | succ m ih =>
    intro visible batch k c
    unfold create_fake_addresses_loop
    cases hg : get_random_existing_user_id db rnd k with
    | mk ouid k1 =>
    cases ouid with
    | none => exact ih ..
    | some uid =>
      dsimp only
      by_cases hdup : (visible.any (fun a => a.user_id = uid) || batch.any (fun a => a.user_id = uid))
      · rw [if_pos hdup]; exact ih ..
      · rw [if_neg hdup]
        by_cases hfull : batch_size ≤ (batch ++ [(mk_fake_address rnd k1 uid dl).fst]).length
        · rw [if_pos hfull]
          by_cases hcf : cf c
          · simp [hcf]
          · simp only [hcf, Bool.false_eq_true, if_false]; exact ih ..
        · rw [if_neg hfull]; exact ih ..

/-- When no commit fails, the address loop runs to the end and returns
Python's `None`. -/
theorem create_fake_addresses_loop_ok (db : DB) (rnd : Nat → Nat) (cf : Nat → Bool)
    (dl : DataLists) (hcf : ∀ c, cf c = false) :
    ∀ n visible batch k c,
      (create_fake_addresses_loop db rnd cf dl n visible batch k c).ret = .ok none := by
  intro n
  induction n with
  | zero =>
    intro visible batch k c
    unfold create_fake_addresses_loop
    simp [hcf c]
  | succ m ih =>
    intro visible batch k c
    unfold create_fake_addresses_loop
    cases hg : get_random_existing_user_id db rnd k with
    | mk ouid k1 =>
    cases ouid with
    | none => exact ih ..
    | some uid =>
      dsimp only
      by_cases hdup : (visible.any (fun a => a.user_id = uid) || batch.any (fun a => a.user_id = uid))
      · rw [if_pos hdup]; exact ih ..
      · rw [if_neg hdup]
        by_cases hfull : batch_size ≤ (batch ++ [(mk_fake_address rnd k1 uid dl).fst]).length
        · rw [if_pos hfull]
          simp only [hcf c, Bool.false_eq_true, if_false]
          exact ih ..
        · rw [if_neg hfull]; exact ih ..

/-! ### Claim theorems -/

/-- C1: for every order created by `FakeData.create_fake_orders`, the
stored `total_amount` equals the sum over its order items of
`quantity * unit_price`, and each item's `unit_price` is the price the
referenced product has in the database at creation time. -/
theorem order_total_matches_items (db : DB) (rnd : Nat → Nat) (now : Nat) (today : String)
    (how_many max_items_in_order : Nat) (ow : OrderWithItems)
    (hmem : ow ∈ create_fake_orders db rnd now today how_many max_items_in_order) :
    ow.order.total_amount = (ow.items.map (fun it => (it.quantity : Rat) * it.unit_price)).sum
    ∧ ∀ it ∈ ow.items, ∃ p ∈ db.products, p.id = it.product_id ∧ it.unit_price = p.price := by
  unfold create_fake_orders at hmem
  obtain ⟨k0, k1, hit⟩ := create_fake_orders_loop_mem hmem
  have hs := order_iteration_spec hit
  exact ⟨hs.2.2.2.1, hs.2.2.2.2⟩

/-- C1 witness: the theorem applied to the concrete order generated on
`seedDb` by the all-zero entropy stream. -/
theorem order_total_matches_items_witness :
    seedOw ∈ create_fake_orders seedDb (fun _ => 0) 0 "20260101" 1 1
    ∧ seedOw.order.total_amount
        = (seedOw.items.map (fun it => (it.quantity : Rat) * it.unit_price)).sum :=
  ⟨by rw [show create_fake_orders seedDb (fun _ => 0) 0 "20260101" 1 1 = [seedOw] from rfl]
      exact List.mem_singleton_self _,
   (order_total_matches_items seedDb (fun _ => 0) 0 "20260101" 1 1 seedOw
      (by rw [show create_fake_orders seedDb (fun _ => 0) 0 "20260101" 1 1 = [seedOw] from rfl]
          exact List.mem_singleton_self _)).1⟩

/-- C5: every order created by `FakeData.create_fake_orders` references an
existing user, ships to an address belonging to that same user, and has a
nonempty list of line items, given `max_items_in_order ≥ 1`. -/
theorem fake_orders_wellformed (db : DB) (rnd : Nat → Nat) (now : Nat) (today : String)
    (how_many max_items_in_order : Nat) (hmi : 1 ≤ max_items_in_order) (ow : OrderWithItems)
    (hmem : ow ∈ create_fake_orders db rnd now today how_many max_items_in_order) :
    (∃ u ∈ db.users, u.id = ow.order.user_id)
    ∧ (∃ a ∈ db.addresses, a.user_id = ow.order.user_id
        ∧ ow.order.shipping_address_id = some a.id)
    ∧ ow.items ≠ [] := by
  unfold create_fake_orders at hmem
  obtain ⟨k0, k1, hit⟩ := create_fake_orders_loop_mem hmem
  have hs := order_iteration_spec hit
  exact ⟨hs.1, hs.2.1, hs.2.2.1⟩

/-- C5 witness: the theorem applied to the concrete order generated on
`seedDb` by the all-zero entropy stream. -/
theorem fake_orders_wellformed_witness :
    (1 ≤ 1 ∧ seedOw ∈ create_fake_orders seedDb (fun _ => 0) 0 "20260101" 1 1)
    ∧ seedOw.items ≠ [] :=
  ⟨⟨Nat.le_refl 1,
    by rw [show create_fake_orders seedDb (fun _ => 0) 0 "20260101" 1 1 = [seedOw] from rfl]
       exact List.mem_singleton_self _⟩,
   (fake_orders_wellformed seedDb (fun _ => 0) 0 "20260101" 1 1 (Nat.le_refl 1) seedOw
      (by rw [show create_fake_orders seedDb (fun _ => 0) 0 "20260101" 1 1 = [seedOw] from rfl]
          exact List.mem_singleton_self _)).2.2⟩


/-- C10: a `some` result of `FakeData.get_random_existing_user_id` is the
id of a user present in the database at the time of the check; an empty
users table yields `None`; and some nonempty databases also yield `None`
(after 10000 missed probes), so `None` does not imply emptiness. -/
theorem random_user_id_spec :
    (∀ (db : DB) (rnd : Nat → Nat) (k r k1 : Nat),
        get_random_existing_user_id db rnd k = (some r, k1) → ∃ u ∈ db.users, u.id = r)
    ∧ (∀ (db : DB) (rnd : Nat → Nat) (k : Nat), db.users = [] →
        get_random_existing_user_id db rnd k = (none, k))
    ∧ (∃ (db : DB) (rnd : Nat → Nat), db.users ≠ []
        ∧ (get_random_existing_user_id db rnd 0).fst = none) := by
  refine ⟨fun db rnd k r k1 h => get_random_some_exists h, ?_, ?_⟩
  · intro db rnd k hempty
    simp [get_random_existing_user_id, get_min_max_user_id, hempty]
  · refine ⟨gapDb, fun _ => 1, by decide, ?_⟩
    have hmiss : ∀ j, check_user_exists gapDb (randint (fun _ => 1) j 1 3) = false := by
      intro j
      rw [show randint (fun _ => 1) j 1 3 = 2 from rfl]
      decide
    unfold get_random_existing_user_id
    rw [show get_min_max_user_id gapDb = (some 1, some 3) from rfl]
    show (probe_user_id gapDb (fun _ => 1) 1 3 10000 0).fst = none
    rw [probe_all_miss hmiss 10000 0]

/-- C10 witness: on `seedDb` the very first probe hits user 1, and the
theorem yields that a user with id 1 indeed exists there. -/
theorem random_user_id_spec_witness :
    get_random_existing_user_id seedDb (fun _ => 0) 0 = (some 1, 1)
    ∧ ∃ u ∈ seedDb.users, u.id = 1 :=
  ⟨rfl, random_user_id_spec.1 seedDb (fun _ => 0) 0 1 1 rfl⟩

/-- C9: none of the four seeding entry points ever creates more than
`limitation = 10000` objects, whatever `how_many` was requested: the count
is clamped before generation. -/
theorem fake_data_respects_limitation :
    (∀ (rnd : Nat → Nat) (now how_many : Nat),
        (create_fake_users rnd now how_many).length ≤ limitation)
    ∧ (∀ (db : DB) (rnd : Nat → Nat) (now how_many : Nat) (ps : List ProductWithCategories),
        create_fake_products db rnd now how_many = .ok ps → ps.length ≤ limitation)
    ∧ (∀ (db : DB) (rnd : Nat → Nat) (cf : Nat → Bool) (dl : DataLists) (how_many : Nat),
        (create_fake_addresses db rnd cf dl how_many).addresses.length
          ≤ db.addresses.length + limitation)
    ∧ (∀ (db : DB) (rnd : Nat → Nat) (now : Nat) (today : String)
        (how_many max_items_in_order : Nat),
        (create_fake_orders db rnd now today how_many max_items_in_order).length ≤ limitation) := by
  refine ⟨?_, ?_, ?_, ?_⟩
  · intro rnd now how_many
    unfold create_fake_users
    rw [create_fake_users_loop_length]
    exact Nat.min_le_right ..
  · intro db rnd now how_many ps h
    unfold create_fake_products at h
    rw [create_fake_products_loop_length rnd now db.categories h]
    exact Nat.min_le_right ..
  · intro db rnd cf dl how_many
    unfold create_fake_addresses
    calc (create_fake_addresses_loop db rnd cf dl (Nat.min how_many limitation)
            db.addresses [] 0 0).addresses.length
        ≤ db.addresses.length + ([] : List UserAddressRow).length + Nat.min how_many limitation :=
          create_fake_addresses_loop_length ..
      _ = db.addresses.length + Nat.min how_many limitation := by
          rw [List.length_nil, Nat.add_zero]
      _ ≤ db.addresses.length + limitation :=
          Nat.add_le_add_left (Nat.min_le_right ..) _
  · intro db rnd now today how_many max_items_in_order
    unfold create_fake_orders
    calc (create_fake_orders_loop db rnd now today (Nat.min max_items_in_order limitation)
            (Nat.min how_many limitation) 0).length
        ≤ Nat.min how_many limitation := create_fake_orders_loop_length ..
      _ ≤ limitation := Nat.min_le_right ..

/-- C9 witness: the product conjunct applied to a concrete successful run
on a one-category database. -/
theorem fake_data_respects_limitation_witness :
    create_fake_products oneCategoryDb (fun _ => 0) 0 2 = .ok seedPs
    ∧ seedPs.length ≤ limitation :=
  ⟨rfl, fake_data_respects_limitation.2.1 oneCategoryDb (fun _ => 0) 0 2 seedPs rfl⟩


/-- C2: deleting a user removes, via the declared cascades, all of the
user's orders, reviews, payments, cart items, addresses and wishlists, and
transitively the wishlist items of those wishlists: afterwards no row in
any of those tables references the deleted user. -/
theorem delete_user_removes_dependents (db : DB) (uid : Nat) :
    (∀ o ∈ (deleteUser db uid).orders, o.user_id ≠ uid)
    ∧ (∀ r ∈ (deleteUser db uid).reviews, r.user_id ≠ uid)
    ∧ (∀ p ∈ (deleteUser db uid).payments, p.user_id ≠ uid)
    ∧ (∀ c ∈ (deleteUser db uid).cartItems, c.user_id ≠ uid)
    ∧ (∀ a ∈ (deleteUser db uid).addresses, a.user_id ≠ uid)
    ∧ (∀ w ∈ (deleteUser db uid).wishlists, w.user_id ≠ uid)
    ∧ (∀ wi ∈ (deleteUser db uid).wishlistItems, ∀ w ∈ db.wishlists,
        w.user_id = uid → wi.wishlist_id ≠ w.id) := by
  refine ⟨?_, ?_, ?_, ?_, ?_, ?_, ?_⟩
  · intro o ho
    simp only [deleteUser, List.mem_filter, decide_not, Bool.not_eq_eq_eq_not,
      Bool.not_true, decide_eq_false_iff_not] at ho
    exact ho.2
  · intro r hr
    simp only [deleteUser, List.mem_filter, decide_not, Bool.not_eq_eq_eq_not,
      Bool.not_true, decide_eq_false_iff_not] at hr
    exact hr.2
  · intro p hp
    simp only [deleteUser, List.mem_filter, decide_eq_true_eq] at hp
    exact fun h => hp.2 (Or.inl h)
  · intro c hc
    simp only [deleteUser, List.mem_filter, decide_not, Bool.not_eq_eq_eq_not,
      Bool.not_true, decide_eq_false_iff_not] at hc
    exact hc.2
  · intro a ha
    simp only [deleteUser, List.mem_filter, decide_not, Bool.not_eq_eq_eq_not,
      Bool.not_true, decide_eq_false_iff_not] at ha
    exact ha.2
  · intro w hw
    simp only [deleteUser, List.mem_filter, decide_not, Bool.not_eq_eq_eq_not,
      Bool.not_true, decide_eq_false_iff_not] at hw
    exact hw.2
  · intro wi hwi w hw hwu heq
    simp only [deleteUser, List.mem_filter, decide_eq_true_eq] at hwi
    apply hwi.2
    exact heq ▸ List.mem_map.mpr ⟨w, List.mem_filter.mpr ⟨hw, by simp [hwu]⟩, rfl⟩

/-- C2 witness: the theorem applied on `twoUserDb` to the surviving
wishlist item of user 2, against the deleted wishlist of user 1. -/
theorem delete_user_removes_dependents_witness :
    (exWishlistItem 2 20 1 ∈ (deleteUser twoUserDb 1).wishlistItems
      ∧ exWishlist 10 1 ∈ twoUserDb.wishlists ∧ (exWishlist 10 1).user_id = 1)
    ∧ (exWishlistItem 2 20 1).wishlist_id ≠ (exWishlist 10 1).id :=
  ⟨⟨by decide, by decide, rfl⟩,
   (delete_user_removes_dependents twoUserDb 1).2.2.2.2.2.2 (exWishlistItem 2 20 1) (by decide)
     (exWishlist 10 1) (by decide) rfl⟩

/-- C3 counterexample: the claim says a review whose rating lies outside
`[1, 5]` is rejected; but `reviews` declares no check constraint, and a
rating-6 review on a valid user and product is accepted and persisted. -/
theorem review_rating_six_accepted :
    insertReview seedDb (exReview 0 1 1 6) = .ok { seedDb with reviews := [exReview 1 1 1 6] } := rfl

/-- C3 amended: the schema places no constraint on `rating`; a review
with any integer rating — inside or outside `[1, 5]` — is accepted and
persisted whenever its user and product foreign keys resolve. -/
theorem review_insert_ignores_rating (db : DB) (r : ReviewRow)
    (hu : ∃ u ∈ db.users, u.id = r.user_id)
    (hp : ∃ p ∈ db.products, p.id = r.product_id) :
    insertReview db r
      = .ok { db with
          reviews := db.reviews ++ [{ r with id := nextId (db.reviews.map (fun x => x.id)) }] } := by
  obtain ⟨u, hu1, hu2⟩ := hu
  obtain ⟨p, hp1, hp2⟩ := hp
  have h1 : db.users.any (fun x => x.id = r.user_id) = true :=
    List.any_eq_true.mpr ⟨u, hu1, by simp [hu2]⟩
  have h2 : db.products.any (fun x => x.id = r.product_id) = true :=
    List.any_eq_true.mpr ⟨p, hp1, by simp [hp2]⟩
  simp [insertReview, h1, h2]

/-- C3 witness: the amended theorem applied to an in-range rating on the
seeded database. -/
theorem review_insert_ignores_rating_witness :
    insertReview seedDb (exReview 0 1 1 3) = .ok { seedDb with reviews := [exReview 1 1 1 3] } :=
  review_insert_ignores_rating seedDb (exReview 0 1 1 3)
    ⟨exUser 1, by decide, rfl⟩ ⟨exProduct 1 "SKU-001" "p-1" 10, by decide, rfl⟩

/-- C4: the cart's declared unique constraint on `(user_id, product_id)`
rejects a second row for the same pair, leaving the database unchanged,
and a successful insert preserves at-most-one-row-per-pair. -/
theorem cart_pair_unique_insert (db : DB) (c : ShoppingCartRow)
    (hu : ∃ u ∈ db.users, u.id = c.user_id)
    (hp : ∃ p ∈ db.products, p.id = c.product_id) :
    ((∃ x ∈ db.cartItems, x.user_id = c.user_id ∧ x.product_id = c.product_id) →
      insertCartRow db c = .error .uniqueViolation ∧ insertCartRowState db c = db)
    ∧ (cart_pairs_unique db.cartItems →
        ∀ db2, insertCartRow db c = .ok db2 → cart_pairs_unique db2.cartItems) := by
  obtain ⟨u, hu1, hu2⟩ := hu
  obtain ⟨p, hp1, hp2⟩ := hp
  have h1 : db.users.any (fun x => x.id = c.user_id) = true :=
    List.any_eq_true.mpr ⟨u, hu1, by simp [hu2]⟩
  have h2 : db.products.any (fun x => x.id = c.product_id) = true :=
    List.any_eq_true.mpr ⟨p, hp1, by simp [hp2]⟩
  constructor
  · rintro ⟨x, hx1, hx2, hx3⟩
    have h3 : db.cartItems.any (fun y => y.user_id = c.user_id ∧ y.product_id = c.product_id) = true :=
      List.any_eq_true.mpr ⟨x, hx1, by simp [hx2, hx3]⟩
    have herr : insertCartRow db c = .error .uniqueViolation := by
      unfold insertCartRow
      rw [if_neg (by simp [h1]), if_neg (by simp [h2]), if_pos h3]
    exact ⟨herr, by simp [insertCartRowState, herr]⟩
  · intro hpw db2 hok
    by_cases h3 : db.cartItems.any (fun y => y.user_id = c.user_id ∧ y.product_id = c.product_id) = true
    · have herr : insertCartRow db c = .error .uniqueViolation := by
        unfold insertCartRow
        rw [if_neg (by simp [h1]), if_neg (by simp [h2]), if_pos h3]
      rw [herr] at hok
      cases hok
    · have hins : insertCartRow db c = .ok { db with
          cartItems := db.cartItems ++ [{ c with id := nextId (db.cartItems.map (fun y => y.id)) }] } := by
        unfold insertCartRow
        rw [if_neg (by simp [h1]), if_neg (by simp [h2]), if_neg h3]
      rw [hins] at hok
      injection hok with hok2
      subst hok2
      show cart_pairs_unique (db.cartItems ++ [{ c with id := nextId (db.cartItems.map (fun y => y.id)) }])
      unfold cart_pairs_unique
      rw [List.pairwise_append]
      refine ⟨hpw, List.pairwise_singleton .., ?_⟩
      intro a ha b hb
      rw [List.mem_singleton] at hb
      subst hb
      intro hcon
      have hcon1 : a.user_id = c.user_id := hcon.1
      have hcon2 : a.product_id = c.product_id := hcon.2
      exact h3 (List.any_eq_true.mpr ⟨a, ha, by simp [hcon1, hcon2]⟩)

/-- C4 witness: the theorem applied to a second (user 1, product 1) cart
row on `cartDb`, which already holds one. -/
theorem cart_pair_unique_insert_witness :
    insertCartRow cartDb (exCart 0 1 1 1) = .error .uniqueViolation
    ∧ insertCartRowState cartDb (exCart 0 1 1 1) = cartDb :=
  (cart_pair_unique_insert cartDb (exCart 0 1 1 1)
      ⟨exUser 1, by decide, rfl⟩ ⟨exProduct 1 "SKU-001" "p-1" 10, by decide, rfl⟩).1
    ⟨exCart 1 1 1 2, by decide, rfl, rfl⟩


/-- C6: `sku` and `slug` are declared unique on `products`: a successful
insert preserves pairwise distinctness of both, and inserting a product
duplicating an existing `sku` or `slug` is rejected, leaving the catalog
unchanged. -/
theorem product_sku_slug_unique (db : DB) (p : ProductRow) :
    ((skus_distinct db.products ∧ slugs_distinct db.products) →
      ∀ db2, insertProduct db p = .ok db2 →
        skus_distinct db2.products ∧ slugs_distinct db2.products)
    ∧ ((∃ q ∈ db.products, q.sku = p.sku ∨ q.slug = p.slug) →
        insertProduct db p = .error .uniqueViolation ∧ insertProductState db p = db) := by
  constructor
  · rintro ⟨hsku, hslug⟩ db2 hok
    by_cases h1 : db.products.any (fun q => q.sku = p.sku) = true
    · have herr : insertProduct db p = .error .uniqueViolation := by
        unfold insertProduct
        rw [if_pos h1]
      rw [herr] at hok
      cases hok
    · by_cases h2 : db.products.any (fun q => q.slug = p.slug) = true
      · have herr : insertProduct db p = .error .uniqueViolation := by
          unfold insertProduct
          rw [if_neg h1, if_pos h2]
        rw [herr] at hok
        cases hok
      · have hins : insertProduct db p = .ok { db with
            products := db.products ++ [{ p with id := nextId (db.products.map (fun x => x.id)) }] } := by
          unfold insertProduct
          rw [if_neg h1, if_neg h2]
        rw [hins] at hok
        injection hok with hok2
        subst hok2
        constructor
        · show skus_distinct (db.products ++ [{ p with id := nextId (db.products.map (fun x => x.id)) }])
          unfold skus_distinct
          rw [List.pairwise_append]
          refine ⟨hsku, List.pairwise_singleton .., ?_⟩
          intro a ha b hb
          rw [List.mem_singleton] at hb
          subst hb
          intro hcon
          have hcon2 : a.sku = p.sku := hcon
          exact h1 (List.any_eq_true.mpr ⟨a, ha, by simp [hcon2]⟩)
        · show slugs_distinct (db.products ++ [{ p with id := nextId (db.products.map (fun x => x.id)) }])
          unfold slugs_distinct
          rw [List.pairwise_append]
          refine ⟨hslug, List.pairwise_singleton .., ?_⟩
          intro a ha b hb
          rw [List.mem_singleton] at hb
          subst hb
          intro hcon
          have hcon2 : a.slug = p.slug := hcon
          exact h2 (List.any_eq_true.mpr ⟨a, ha, by simp [hcon2]⟩)
  · rintro ⟨q, hq, hor⟩
    by_cases h1 : db.products.any (fun x => x.sku = p.sku) = true
    · have herr : insertProduct db p = .error .uniqueViolation := by
        unfold insertProduct
        rw [if_pos h1]
      exact ⟨herr, by simp [insertProductState, herr]⟩
    · have hsl : q.slug = p.slug := by
        rcases hor with hsk | hsl
        · exact absurd (List.any_eq_true.mpr ⟨q, hq, by simp [hsk]⟩) h1
        · exact hsl
      have h2 : db.products.any (fun x => x.slug = p.slug) = true :=
        List.any_eq_true.mpr ⟨q, hq, by simp [hsl]⟩
      have herr : insertProduct db p = .error .uniqueViolation := by
        unfold insertProduct
        rw [if_neg h1, if_pos h2]
      exact ⟨herr, by simp [insertProductState, herr]⟩

/-- C6 witness: the theorem applied to a product duplicating the sku
already present in `catalogDb`. -/
theorem product_sku_slug_unique_witness :
    insertProduct catalogDb (exProduct 0 "SKU-001" "other" 5) = .error .uniqueViolation
    ∧ insertProductState catalogDb (exProduct 0 "SKU-001" "other" 5) = catalogDb :=
  (product_sku_slug_unique catalogDb (exProduct 0 "SKU-001" "other" 5)).2
    ⟨exProduct 1 "SKU-001" "p-1" 10, by decide, Or.inl rfl⟩

/-- C7: every entity declares a single autoincrement surrogate primary key
column `id`, except the association entity `products_categories`, whose
primary key is exactly the pair of its foreign keys and which has no `id`
column at all; the composite key makes each `(product_id, category_id)`
pair unique by construction under inserts. -/
theorem entity_primary_key_convention :
    (∀ e : Entity, e ≠ .productCategory →
      primary_key_columns e = ["id"] ∧ pk_autoincrement e = true ∧ "id" ∈ table_columns e)
    ∧ primary_key_columns .productCategory = ["product_id", "category_id"]
    ∧ pk_autoincrement .productCategory = false
    ∧ "id" ∉ table_columns .productCategory
    ∧ (∀ (db : DB) (pc : ProductCategoryRow) (db2 : DB),
        pc_pairs_unique db.productCategories → insertProductCategory db pc = .ok db2 →
          pc_pairs_unique db2.productCategories) := by
  refine ⟨?_, rfl, rfl, by decide, ?_⟩
  · intro e he
    cases e <;> first
      | exact absurd rfl he
      | exact ⟨rfl, rfl, by decide⟩
  · intro db pc db2 hpw hok
    by_cases h1 : db.products.any (fun q => q.id = pc.product_id) = true
    · by_cases h2 : db.categories.any (fun q => q.id = pc.category_id) = true
      · by_cases h3 : db.productCategories.any
            (fun x => x.product_id = pc.product_id ∧ x.category_id = pc.category_id) = true
        · have herr : insertProductCategory db pc = .error .uniqueViolation := by
            unfold insertProductCategory
            rw [if_neg (by simp [h1]), if_neg (by simp [h2]), if_pos h3]
          rw [herr] at hok
          cases hok
        · have hins : insertProductCategory db pc
              = .ok { db with productCategories := db.productCategories ++ [pc] } := by
            unfold insertProductCategory
            rw [if_neg (by simp [h1]), if_neg (by simp [h2]), if_neg h3]
          rw [hins] at hok
          injection hok with hok2
          subst hok2
          show pc_pairs_unique (db.productCategories ++ [pc])
          unfold pc_pairs_unique
          rw [List.pairwise_append]
          refine ⟨hpw, List.pairwise_singleton .., ?_⟩
          intro a ha b hb
          rw [List.mem_singleton] at hb
          subst hb
          intro hcon
          exact h3 (List.any_eq_true.mpr ⟨a, ha, by simp [hcon.1, hcon.2]⟩)
      · have herr : insertProductCategory db pc = .error .foreignKeyViolation := by
          unfold insertProductCategory
          rw [if_neg (by simp [h1]), if_pos (by simp [h2])]
        rw [herr] at hok
        cases hok
    · have herr : insertProductCategory db pc = .error .foreignKeyViolation := by
        unfold insertProductCategory
        rw [if_pos (by simp [h1])]
      rw [herr] at hok
      cases hok

/-- C7 witness: the surrogate-key description for the user entity, and
the pair-uniqueness invariant carried through a concrete association
insert on `catalogDb`. -/
theorem entity_primary_key_convention_witness :
    primary_key_columns Entity.user = ["id"]
    ∧ pc_pairs_unique catalogDb2.productCategories :=
  ⟨(entity_primary_key_convention.1 Entity.user (by decide)).1,
   entity_primary_key_convention.2.2.2.2 catalogDb { product_id := 1, category_id := 1 } catalogDb2
     List.Pairwise.nil rfl⟩

/-- C8 counterexample: a concrete seeding run that successfully inserts
one address row returns `None` — no row count reaches the caller — and a
run whose commit fails propagates a bare exception, which carries no row
count either.  This refutes the claim that the number of successfully
inserted rows is reported to the caller. -/
theorem fake_addresses_report_counterexample :
    (create_fake_addresses oneUserDb (fun _ => 0) (fun _ => false) exDataLists 1).addresses.length = 1
    ∧ reported_rows (create_fake_addresses oneUserDb (fun _ => 0) (fun _ => false) exDataLists 1) = none
    ∧ (create_fake_addresses oneUserDb (fun _ => 0) (fun _ => true) exDataLists 1).ret = .error () :=
  ⟨rfl, rfl, rfl⟩

/-- C8 amended: a failed batch commit raises and the exception
propagates, aborting the remaining run — so failures are not silent — but
the number of successfully inserted rows is never reported to the caller:
`create_fake_addresses` returns `None` on every non-raising run. -/
theorem fake_addresses_abort_no_report (db : DB) (rnd : Nat → Nat) (cf : Nat → Bool)
    (dl : DataLists) (how_many : Nat) :
    reported_rows (create_fake_addresses db rnd cf dl how_many) = none
    ∧ ((create_fake_addresses db rnd cf dl how_many).ret = .ok none
        ∨ (create_fake_addresses db rnd cf dl how_many).ret = .error ())
    ∧ ((∀ c, cf c = false) → (create_fake_addresses db rnd cf dl how_many).ret = .ok none) := by
  refine ⟨?_, ?_, ?_⟩
  · unfold create_fake_addresses
    rcases create_fake_addresses_loop_ret db rnd cf dl (Nat.min how_many limitation)
        db.addresses [] 0 0 with h | h <;>
      simp [reported_rows, h]
  · exact create_fake_addresses_loop_ret db rnd cf dl (Nat.min how_many limitation)
      db.addresses [] 0 0
  · intro hcf
    exact create_fake_addresses_loop_ok db rnd cf dl hcf (Nat.min how_many limitation)
      db.addresses [] 0 0

/-- C8 witness: the amended theorem applied to a concrete run without
commit failures. -/
theorem fake_addresses_abort_no_report_witness :
    (create_fake_addresses oneUserDb (fun _ => 0) (fun _ => false) exDataLists 2).ret = .ok none :=
  (fake_addresses_abort_no_report oneUserDb (fun _ => 0) (fun _ => false) exDataLists 2).2.2
    (fun _ => rfl)

end ShopDb
